import Mathlib

/-!
# Verification of the api-sentinel SDK core

Shallow embedding of the `sentinel` Python package: the process-wide
budget state (`_SENTINEL_CONFIG`), the session initializer (`init`), the
interception wrapper installed by `wrap` (`_sentinel_wrapper`), and the
bundled OpenAI adapter (`OpenAIAdapter.get_usage_and_cost` together with
`_calculate_openai_cost`).

Monetary amounts and token counts are modelled with exact rationals and
integers.  Network effects are modelled by passing the outcome of each
outbound HTTP interaction (`VerifyOutcome`) as explicit data, and the
mutable global dictionary is modelled by explicit state passing: every
stateful operation takes a `SentinelConfig` and returns the updated one.
Python exceptions become `Except` results, tagged by the exception class
raised (`ValueError`, `RuntimeError`, `KeyError`, `BudgetExceededError`,
and the pass-through error of the underlying client).
-/

namespace Sentinel

/-- The process-wide mutable dictionary `_SENTINEL_CONFIG`.
`api_key` and `project_id` start as Python `None`, hence `Option`. -/
structure SentinelConfig where
  api_key : Option String
  backend_url : String
  project_id : Option String
  monthly_budget : ℚ
  current_usage : ℚ
  deriving Repr, DecidableEq

/-- The module-load-time value of `_SENTINEL_CONFIG`. -/
def initialConfig : SentinelConfig :=
  { api_key := none
    backend_url := "http://127.0.0.1:8000"
    project_id := none
    monthly_budget := 0
    current_usage := 0 }

/-- The Python exceptions the SDK can raise, tagged by class. -/
inductive SentinelError where
  | valueError (msg : String)
  | runtimeError (msg : String)
  | keyError (key : String)
  | budgetExceeded (msg : String)
  | clientError (msg : String)
  deriving Repr, DecidableEq

/-- The JSON object decoded from the verify endpoint's response body;
each field is present or absent (absence triggers a Python `KeyError`). -/
structure JsonBody where
  project_id : Option String
  monthly_budget : Option ℚ
  current_usage : Option ℚ
  deriving Repr, DecidableEq

/-- Outcome of `response.json()`: a decoded object or a decode failure
(`requests.exceptions.JSONDecodeError`, a `RequestException`). -/
inductive BodyResult where
  | ok (body : JsonBody)
  | parseError (msg : String)
  deriving Repr, DecidableEq

/-- Outcome of the `requests.get(.../keys/verify, ...)` interaction:
either an HTTP response with a status code and a body, or a transport
failure (`requests.RequestException`: timeout, refused connection, ...). -/
inductive VerifyOutcome where
  | httpResponse (status : Nat) (body : BodyResult)
  | networkError (msg : String)
  deriving Repr, DecidableEq

/-- Python `s.startswith(pre)`, modelled on the character list
underlying the string. -/
def strStartswith (s pre : String) : Bool :=
  pre.data.isPrefixOf s.data

/-- Model of `not api_key or not api_key.startswith("api-sentinel_pk_")`,
the key-format guard at the top of `init`. -/
def keyInvalid (api_key : String) : Bool :=
  api_key == "" || !(strStartswith api_key "api-sentinel_pk_")

/-- Message of the `ValueError` raised on a malformed key. -/
def keyFormatMsg : String :=
  "A valid Sentinel API key (api-sentinel_pk_...) is required."

/-- Message of the `ValueError` raised on HTTP 401 from verify. -/
def unauthorizedMsg : String :=
  "Invalid Sentinel API key. Please check your key on the dashboard."

/-- Message of the `RuntimeError` raised on a non-401 HTTP error. -/
def backendStatusMsg (status : Nat) : String :=
  "[API - SENTINEL] Could not connect to backend. Status: " ++ toString status

/-- Message of the `RuntimeError` raised on a `RequestException`. -/
def backendNetworkMsg (msg : String) : String :=
  "[API - SENTINEL] Could not connect to backend. Network error: " ++ msg

/-- Predicate telling when `requests.Response.raise_for_status` raises
an `HTTPError`: exactly for status codes 400-599. -/
def raiseForStatus (status : Nat) : Bool :=
  decide (400 ≤ status) && decide (status < 600)

/-- Model of `sentinel.init(api_key)`.  Returns the updated global state together
with the call's outcome.  Mirrors the source order: the format guard
first, then `api_key` is stored, then the verify request is issued; on a
4xx/5xx status `raise_for_status` raises before the body is read; on
other statuses the body is decoded and the three fields are copied into
the global state one assignment at a time (a missing field raises
`KeyError` between assignments, a decode failure is caught by the
`except requests.RequestException` clause). -/
def init (cfg : SentinelConfig) (api_key : String) (verify : VerifyOutcome) :
    SentinelConfig × Except SentinelError Unit :=
  if keyInvalid api_key then
    (cfg, .error (.valueError keyFormatMsg))
  else
    let cfg1 := { cfg with api_key := some api_key }
    match verify with
    | .networkError msg =>
        (cfg1, .error (.runtimeError (backendNetworkMsg msg)))
    | .httpResponse status body =>
        if raiseForStatus status then
          if status = 401 then
            (cfg1, .error (.valueError unauthorizedMsg))
          else
            (cfg1, .error (.runtimeError (backendStatusMsg status)))
        else
          match body with
          | .parseError msg =>
              (cfg1, .error (.runtimeError (backendNetworkMsg msg)))
          | .ok data =>
              match data.project_id with
              | none => (cfg1, .error (.keyError "project_id"))
              | some pid =>
                let cfg2 := { cfg1 with project_id := some pid }
                match data.monthly_budget with
                | none => (cfg2, .error (.keyError "monthly_budget"))
                | some mb =>
                  let cfg3 := { cfg2 with monthly_budget := mb }
                  match data.current_usage with
                  | none => (cfg3, .error (.keyError "current_usage"))
                  | some cu =>
                    ({ cfg3 with current_usage := cu }, .ok ())

/-- Message of the `RuntimeError` raised by `wrap` before a key is set. -/
def notInitializedMsg : String :=
  "Sentinel SDK has not been initialized. Please call sentinel.init() first."

/-- Python truthiness of the `api_key` slot: `None` and `""` are falsy. -/
def keyFalsy : Option String → Bool
  | none => true
  | some s => s == ""

/-- The guard of `sentinel.wrap(client, adapter)`:
`if not _SENTINEL_CONFIG["api_key"]: raise RuntimeError(...)`.
On success the client's method is replaced by `_sentinel_wrapper`
(modelled separately as `sentinelWrapper`). -/
def wrap (cfg : SentinelConfig) : Except SentinelError Unit :=
  if keyFalsy cfg.api_key then
    .error (.runtimeError notInitializedMsg)
  else
    .ok ()

/-- The `usage_metadata` dictionary of a `UsageRecord`. -/
structure UsageMetadata where
  input_tokens : ℤ
  output_tokens : ℤ
  model : String
  deriving Repr, DecidableEq

/-- The dictionary returned by an adapter's `get_usage_and_cost`. -/
structure UsageData where
  cost : ℚ
  usage_metadata : UsageMetadata
  deriving Repr, DecidableEq

/-- Message of `BudgetExceededError`, interpolating the ceiling as the
f-string in `_sentinel_wrapper` does. -/
def budgetMsg (monthly_budget : ℚ) : String :=
  "Project has exceeded its budget of " ++ toString monthly_budget ++ "."

/-- Everything one invocation of `_sentinel_wrapper` produces: the
global state afterwards, what the call returns or raises, how many times
the captured original method ran, and the usage records handed to the
background reporting thread. -/
structure InvokeResult (ρ : Type) where
  cfg : SentinelConfig
  result : Except SentinelError ρ
  origCalls : Nat
  reports : List UsageData

/-- One invocation of `_sentinel_wrapper(*args, **kwargs)`.
`orig` is the outcome the captured `original_method` would produce for
this invocation's arguments (an exception of the underlying client, or a
response of type `ρ`); `adapter` is `adapter.get_usage_and_cost`, which
may raise.  Order mirrors the source: budget gate, delegate, metering in
a `try` whose `except Exception` swallows adapter failures, usage update,
report dispatch, return of the original response. -/
def sentinelWrapper {ρ : Type} (cfg : SentinelConfig)
    (orig : Except String ρ) (adapter : ρ → Except String UsageData) :
    InvokeResult ρ :=
  if cfg.monthly_budget ≤ cfg.current_usage then
    { cfg := cfg
      result := .error (.budgetExceeded (budgetMsg cfg.monthly_budget))
      origCalls := 0
      reports := [] }
  else
    match orig with
    | .error e =>
        { cfg := cfg, result := .error (.clientError e), origCalls := 1, reports := [] }
    | .ok response =>
        match adapter response with
        | .error _ =>
            { cfg := cfg, result := .ok response, origCalls := 1, reports := [] }
        | .ok usage_data =>
            { cfg := { cfg with current_usage := cfg.current_usage + usage_data.cost }
              result := .ok response
              origCalls := 1
              reports := [usage_data] }

/-! ## The bundled OpenAI adapter -/

/-- The `usage` block of an OpenAI `ChatCompletion` response. -/
structure Usage where
  prompt_tokens : ℤ
  completion_tokens : ℤ
  deriving Repr, DecidableEq

/-- The parts of an OpenAI response the adapter reads. -/
structure OpenAIResponse where
  usage : Usage
  model : String
  deriving Repr, DecidableEq

/-- One entry of the pricing table: USD per million tokens. -/
structure Pricing where
  input : ℚ
  output : ℚ
  deriving Repr, DecidableEq

/-- Table `OpenAIAdapter.MODEL_PRICING`. -/
def MODEL_PRICING : List (String × Pricing) :=
  [("gpt-4o", ⟨5, 15⟩),
   ("gpt-4-turbo", ⟨10, 30⟩),
   ("gpt-3.5-turbo", ⟨1/2, 3/2⟩)]

/-- Model of `self.MODEL_PRICING.get(model_name, ...)` with the
zero-cost default for unknown models. -/
def pricingGet (model_name : String) : Pricing :=
  (MODEL_PRICING.lookup model_name).getD ⟨0, 0⟩

/-- Round a rational to the nearest integer, ties to even — the rounding
mode of Python's built-in `round`. -/
def roundHalfEven (q : ℚ) : ℤ :=
  if q - ⌊q⌋ < 1/2 then ⌊q⌋
  else if (1 : ℚ)/2 < q - ⌊q⌋ then ⌊q⌋ + 1
  else if 2 ∣ ⌊q⌋ then ⌊q⌋ else ⌊q⌋ + 1

/-- Python `round(x, 4)` over exact rationals. -/
def round4 (q : ℚ) : ℚ :=
  (roundHalfEven (q * 10000) : ℚ) / 10000

/-- Model of `OpenAIAdapter._calculate_openai_cost`, over exact rationals. -/
def calculateOpenaiCost (input_tokens output_tokens : ℤ) (model_name : String) : ℚ :=
  let pricing := pricingGet model_name
  let input_cost := ((input_tokens : ℚ) / 1000000) * pricing.input
  let output_cost := ((output_tokens : ℚ) / 1000000) * pricing.output
  let total_cost_usd := input_cost + output_cost
  let usd_to_inr_rate : ℚ := 167/2
  let total_cost_inr := total_cost_usd * usd_to_inr_rate
  round4 total_cost_inr

/-- Model of `OpenAIAdapter.get_usage_and_cost`. -/
def get_usage_and_cost (response : OpenAIResponse) : UsageData :=
  let usage_data := response.usage
  let model_name := response.model
  let input_tokens := usage_data.prompt_tokens
  let output_tokens := usage_data.completion_tokens
  let cost := calculateOpenaiCost input_tokens output_tokens model_name
  { cost := cost
    usage_metadata :=
      { input_tokens := input_tokens
        output_tokens := output_tokens
        model := model_name } }

/-- The OpenAI adapter in the shape `sentinelWrapper` consumes: its
`get_usage_and_cost` is total on well-formed responses, so it never
lands in the wrapper's `except` clause. -/
def openaiAdapter : OpenAIResponse → Except String UsageData :=
  fun response => .ok (get_usage_and_cost response)

/-! ## Sequencing -/

/-- One attempted `sentinel.init` call: the key passed and the outcome
of the verify interaction during that attempt. -/
structure InitAttempt where
  api_key : String
  verify : VerifyOutcome
  deriving Repr, DecidableEq

/-- Run a sequence of `init` attempts against the global state,
ignoring each attempt's raised error (as a caller catching them would). -/
def runInits (cfg : SentinelConfig) (attempts : List InitAttempt) : SentinelConfig :=
  attempts.foldl (fun c a => (init c a.api_key a.verify).1) cfg

/-- Run a sequence of invocations of a method wrapped with the OpenAI
adapter; each list entry is the underlying client's outcome for that
invocation. -/
def runCalls (cfg : SentinelConfig) (calls : List (Except String OpenAIResponse)) :
    SentinelConfig :=
  calls.foldl (fun c o => (sentinelWrapper c o openaiAdapter).cfg) cfg

/-- Both token counts of a response are non-negative. -/
def tokensNonneg (r : OpenAIResponse) : Prop :=
  0 ≤ r.usage.prompt_tokens ∧ 0 ≤ r.usage.completion_tokens

/-- The verify interaction failed in one of the ways the `try` block of
`init` catches: a transport error, or an HTTP status that makes
`raise_for_status` raise. -/
def verifyFails : VerifyOutcome → Prop
  | .networkError _ => True
  | .httpResponse status _ => 400 ≤ status ∧ status < 600


/-! ## Helper lemmas -/

/-- An `init` attempt that fails the key-format guard leaves the global
state untouched, so a whole sequence of such attempts does too. -/
theorem runInits_invalid (attempts : List InitAttempt) (cfg : SentinelConfig)
    (h : ∀ a ∈ attempts, keyInvalid a.api_key = true) :
    runInits cfg attempts = cfg := by
  induction attempts generalizing cfg with
  | nil => rfl
  | cons a as ih =>
    have ha : keyInvalid a.api_key = true := h a (List.mem_cons_self a as)
    have h1 : (init cfg a.api_key a.verify).1 = cfg := by simp [init, ha]
    show runInits (init cfg a.api_key a.verify).1 as = cfg
    rw [h1]
    exact ih cfg fun b hb => h b (List.mem_cons_of_mem a hb)

/-- Every pricing record `MODEL_PRICING.get` can return has non-negative
prices. -/
theorem pricingGet_nonneg (m : String) :
    0 ≤ (pricingGet m).input ∧ 0 ≤ (pricingGet m).output := by
  unfold pricingGet MODEL_PRICING
  simp only [List.lookup]
  repeat' split
  all_goals constructor <;> norm_num [Option.getD]

/-- Rounding ties-to-even preserves non-negativity. -/
theorem roundHalfEven_nonneg (q : ℚ) (h : 0 ≤ q) : 0 ≤ roundHalfEven q := by
  have hf : (0 : ℤ) ≤ ⌊q⌋ := Int.floor_nonneg.mpr h
  unfold roundHalfEven
  split_ifs <;> omega

/-- The OpenAI cost formula is non-negative on non-negative token
counts, whatever the model string. -/
theorem calculateOpenaiCost_nonneg (it ot : ℤ) (m : String)
    (hi : 0 ≤ it) (ho : 0 ≤ ot) : 0 ≤ calculateOpenaiCost it ot m := by
  obtain ⟨h1, h2⟩ := pricingGet_nonneg m
  have hit : (0 : ℚ) ≤ (it : ℚ) := by exact_mod_cast hi
  have hot : (0 : ℚ) ≤ (ot : ℚ) := by exact_mod_cast ho
  have hq : (0 : ℚ) ≤ ((it : ℚ) / 1000000 * (pricingGet m).input
      + (ot : ℚ) / 1000000 * (pricingGet m).output) * (167/2) := by
    have t1 : (0 : ℚ) ≤ (it : ℚ) / 1000000 * (pricingGet m).input :=
      mul_nonneg (div_nonneg hit (by norm_num)) h1
    have t2 : (0 : ℚ) ≤ (ot : ℚ) / 1000000 * (pricingGet m).output :=
      mul_nonneg (div_nonneg hot (by norm_num)) h2
    exact mul_nonneg (add_nonneg t1 t2) (by norm_num)
  have hr : (0 : ℤ) ≤ roundHalfEven (((it : ℚ) / 1000000 * (pricingGet m).input
      + (ot : ℚ) / 1000000 * (pricingGet m).output) * (167/2) * 10000) :=
    roundHalfEven_nonneg _ (mul_nonneg hq (by norm_num))
  unfold calculateOpenaiCost round4
  exact div_nonneg (by exact_mod_cast hr) (by norm_num)

/-- One invocation of the wrapper with the OpenAI adapter never lowers
`current_usage`, provided the response's token counts are non-negative
when the underlying call succeeds. -/
theorem sentinelWrapper_usage_mono (cfg : SentinelConfig)
    (o : Except String OpenAIResponse)
    (h : ∀ r, o = .ok r → tokensNonneg r) :
    cfg.current_usage ≤ (sentinelWrapper cfg o openaiAdapter).cfg.current_usage := by
  unfold sentinelWrapper
  split
  · exact le_rfl
  · cases o with
    | error e => exact le_rfl
    | ok r =>
      obtain ⟨hi, ho⟩ := h r rfl
      simp only [openaiAdapter, get_usage_and_cost]
      exact le_add_of_nonneg_right
        (calculateOpenaiCost_nonneg r.usage.prompt_tokens r.usage.completion_tokens
          r.model hi ho)

/-- Usage is non-decreasing across any run of wrapped invocations with
well-formed (non-negative-token) responses. -/
theorem runCalls_usage_mono (calls : List (Except String OpenAIResponse))
    (cfg : SentinelConfig)
    (h : ∀ o ∈ calls, ∀ r, o = .ok r → tokensNonneg r) :
    cfg.current_usage ≤ (runCalls cfg calls).current_usage := by
  induction calls generalizing cfg with
  | nil => exact le_rfl
  | cons o os ih =>
    have hstep := sentinelWrapper_usage_mono cfg o
      (fun r hr => h o (List.mem_cons_self o os) r hr)
    have htail := ih ((sentinelWrapper cfg o openaiAdapter).cfg)
      (fun o' ho' r hr => h o' (List.mem_cons_of_mem o ho') r hr)
    exact le_trans hstep htail

/-! ## Claim theorems -/

/-- C1: whenever `current_usage >= monthly_budget`, invoking the wrapped
method raises `BudgetExceededError` whose message contains the
configured ceiling, and the captured original method is never invoked
(zero calls); the state is also untouched. -/
theorem C1_budget_gate {ρ : Type} (cfg : SentinelConfig)
    (h : cfg.monthly_budget ≤ cfg.current_usage)
    (orig : Except String ρ) (adapter : ρ → Except String UsageData) :
    (sentinelWrapper cfg orig adapter).result
        = .error (.budgetExceeded (budgetMsg cfg.monthly_budget))
    ∧ (sentinelWrapper cfg orig adapter).origCalls = 0
    ∧ (∃ pre post, budgetMsg cfg.monthly_budget
        = pre ++ toString cfg.monthly_budget ++ post) := by
  simp only [sentinelWrapper, if_pos h]
  exact ⟨trivial, trivial, "Project has exceeded its budget of ", ".", rfl⟩

theorem C1_budget_gate_witness :
    (sentinelWrapper (ρ := Unit) ⟨some "k", "u", none, 10, 10⟩ (.ok ())
        (fun _ => .error "boom")).result
      = .error (.budgetExceeded (budgetMsg 10))
    ∧ (sentinelWrapper (ρ := Unit) ⟨some "k", "u", none, 10, 10⟩ (.ok ())
        (fun _ => .error "boom")).origCalls = 0 := by
  have h := C1_budget_gate (ρ := Unit) ⟨some "k", "u", none, 10, 10⟩ le_rfl
    (.ok ()) (fun _ => .error "boom")
  exact ⟨h.1, h.2.1⟩

/-- C2: under the budget, when the underlying call succeeds and the
adapter succeeds, the wrapper returns the original response unchanged
and `current_usage` grows by exactly the adapter-computed cost. -/
theorem C2_meter_and_return {ρ : Type} (cfg : SentinelConfig)
    (h : cfg.current_usage < cfg.monthly_budget)
    (response : ρ) (adapter : ρ → Except String UsageData)
    (u : UsageData) (ha : adapter response = .ok u) :
    (sentinelWrapper cfg (.ok response) adapter).result = .ok response
    ∧ (sentinelWrapper cfg (.ok response) adapter).cfg.current_usage
        = cfg.current_usage + u.cost := by
  simp only [sentinelWrapper, if_neg (not_le.mpr h), ha]
  exact ⟨trivial, trivial⟩

theorem C2_meter_and_return_witness :
    (sentinelWrapper (ρ := Nat) ⟨some "k", "u", none, 100, 0⟩ (.ok 7)
        (fun _ => .ok ⟨3/2, ⟨1, 2, "m"⟩⟩)).result = .ok 7
    ∧ (sentinelWrapper (ρ := Nat) ⟨some "k", "u", none, 100, 0⟩ (.ok 7)
        (fun _ => .ok ⟨3/2, ⟨1, 2, "m"⟩⟩)).cfg.current_usage = 0 + 3/2 := by
  exact C2_meter_and_return ⟨some "k", "u", none, 100, 0⟩ (by norm_num) 7
    (fun _ => .ok ⟨3/2, ⟨1, 2, "m"⟩⟩) ⟨3/2, ⟨1, 2, "m"⟩⟩ rfl

/-- C3: under the budget, when the underlying call succeeds but the
adapter raises, the exception is swallowed, the caller still receives
the original response, and the whole state (in particular
`current_usage`) is unchanged. -/
theorem C3_adapter_failure_isolated {ρ : Type} (cfg : SentinelConfig)
    (h : cfg.current_usage < cfg.monthly_budget)
    (response : ρ) (adapter : ρ → Except String UsageData)
    (e : String) (ha : adapter response = .error e) :
    (sentinelWrapper cfg (.ok response) adapter).result = .ok response
    ∧ (sentinelWrapper cfg (.ok response) adapter).cfg = cfg := by
  simp only [sentinelWrapper, if_neg (not_le.mpr h), ha]
  exact ⟨trivial, trivial⟩

theorem C3_adapter_failure_isolated_witness :
    (sentinelWrapper (ρ := Nat) ⟨some "k", "u", none, 100, 0⟩ (.ok 7)
        (fun _ => .error "malformed response")).result = .ok 7
    ∧ (sentinelWrapper (ρ := Nat) ⟨some "k", "u", none, 100, 0⟩ (.ok 7)
        (fun _ => .error "malformed response")).cfg
      = ⟨some "k", "u", none, 100, 0⟩ :=
  C3_adapter_failure_isolated ⟨some "k", "u", none, 100, 0⟩ (by norm_num) 7
    (fun _ => .error "malformed response") "malformed response" rfl

/-- C4 counterexample: a single `init` attempt whose key passes the
format check but whose verify request hits a network error fails — yet a
subsequent `wrap` succeeds instead of raising the NotInitialized
`RuntimeError`, because `init` stored the key before verifying it. -/
theorem C4_counterexample :
    (init initialConfig "api-sentinel_pk_x" (.networkError "connection refused")).2
      = .error (.runtimeError (backendNetworkMsg "connection refused"))
    ∧ wrap (runInits initialConfig
        [⟨"api-sentinel_pk_x", .networkError "connection refused"⟩]) = .ok () :=
  ⟨rfl, rfl⟩

/-- C4 (amended): `wrap` fails with the NotInitialized `RuntimeError`
when every attempted `init` failed *at the key-format check* (in
particular when `init` was never called); an attempt that passes the
format check stores the key even if verification then fails, after
which `wrap` no longer raises. -/
theorem C4_wrap_not_initialized (attempts : List InitAttempt)
    (h : ∀ a ∈ attempts, keyInvalid a.api_key = true) :
    wrap (runInits initialConfig attempts)
      = .error (.runtimeError notInitializedMsg) := by
  rw [runInits_invalid attempts initialConfig h]
  rfl

theorem C4_wrap_not_initialized_witness :
    (∀ a ∈ ([⟨"sk-openai-key", .networkError "x"⟩] : List InitAttempt),
        keyInvalid a.api_key = true)
    ∧ wrap (runInits initialConfig [⟨"sk-openai-key", .networkError "x"⟩])
        = .error (.runtimeError notInitializedMsg) := by
  have hk : ∀ a ∈ ([⟨"sk-openai-key", .networkError "x"⟩] : List InitAttempt),
      keyInvalid a.api_key = true := by
    intro a ha
    obtain rfl := List.mem_singleton.mp ha
    decide
  exact ⟨hk, C4_wrap_not_initialized _ hk⟩

/-- C6: a response whose model name is not a key of the pricing table
yields cost `0.0` from `get_usage_and_cost`, and the adapter does not
raise (it produces a value for every well-formed response). -/
theorem C6_unknown_model_zero_cost (r : OpenAIResponse)
    (h : MODEL_PRICING.lookup r.model = none) :
    openaiAdapter r = .ok (get_usage_and_cost r)
    ∧ (get_usage_and_cost r).cost = 0 := by
  refine ⟨rfl, ?_⟩
  simp only [get_usage_and_cost, calculateOpenaiCost, pricingGet, h, Option.getD]
  simp only [round4, roundHalfEven]
  norm_num

theorem C6_unknown_model_zero_cost_witness :
    MODEL_PRICING.lookup "gpt-5-nano" = none
    ∧ openaiAdapter ⟨⟨3, 4⟩, "gpt-5-nano"⟩
        = .ok (get_usage_and_cost ⟨⟨3, 4⟩, "gpt-5-nano"⟩)
    ∧ (get_usage_and_cost ⟨⟨3, 4⟩, "gpt-5-nano"⟩).cost = 0 := by
  have h : MODEL_PRICING.lookup ("gpt-5-nano") = none := by decide
  have hc := C6_unknown_model_zero_cost ⟨⟨3, 4⟩, "gpt-5-nano"⟩ h
  exact ⟨h, hc.1, hc.2⟩

/-- C7: a key that is empty or lacks the `api-sentinel_pk_` prefix makes
`init` raise the InvalidArgument `ValueError` with the state untouched,
and the outcome is the same whatever the verify interaction would have
produced — no network request is consulted. -/
theorem C7_invalid_key_before_network (cfg : SentinelConfig) (api_key : String)
    (h : keyInvalid api_key = true) :
    ∀ verify : VerifyOutcome,
      init cfg api_key verify = (cfg, .error (.valueError keyFormatMsg)) := by
  intro verify
  simp [init, h]

theorem C7_invalid_key_before_network_witness :
    keyInvalid "sk-proj-123" = true
    ∧ init initialConfig "sk-proj-123" (.networkError "never sent")
        = (initialConfig, .error (.valueError keyFormatMsg))
    ∧ init initialConfig "sk-proj-123" (.httpResponse 200 (.ok ⟨some "p", some 1, some 0⟩))
        = (initialConfig, .error (.valueError keyFormatMsg)) := by
  have h : keyInvalid "sk-proj-123" = true := by decide
  exact ⟨h, C7_invalid_key_before_network initialConfig "sk-proj-123" h _,
    C7_invalid_key_before_network initialConfig "sk-proj-123" h _⟩

/-- C8 counterexample: the claim says any non-2xx status other than 401
fails with the BackendUnavailable `RuntimeError`, but `raise_for_status`
only raises for 400–599; a 304 response with a parseable body makes
`init` succeed and populate the state. -/
theorem C8_counterexample :
    init initialConfig "api-sentinel_pk_x"
        (.httpResponse 304 (.ok ⟨some "proj", some 100, some 5⟩))
      = ({ initialConfig with
            api_key := some "api-sentinel_pk_x"
            project_id := some "proj"
            monthly_budget := 100
            current_usage := 5 }, .ok ()) :=
  rfl

/-- C8 (amended): for a format-valid key, HTTP 401 fails with the
Unauthorized `ValueError`; any other 4xx/5xx status fails with the
BackendUnavailable `RuntimeError` carrying the status; a transport
failure fails with the BackendUnavailable `RuntimeError` carrying the
network error; and any response whose status `raise_for_status` accepts
(anything outside 400–599, in particular 2xx) with a parseable body
containing the three fields writes `project_id`, `monthly_budget` and
`current_usage` into the state and returns without error. -/
theorem C8_verify_outcomes (cfg : SentinelConfig) (api_key : String)
    (h : keyInvalid api_key = false) :
    (∀ body, (init cfg api_key (.httpResponse 401 body)).2
        = .error (.valueError unauthorizedMsg))
    ∧ (∀ status body, 400 ≤ status → status < 600 → status ≠ 401 →
        (init cfg api_key (.httpResponse status body)).2
          = .error (.runtimeError (backendStatusMsg status)))
    ∧ (∀ msg, (init cfg api_key (.networkError msg)).2
        = .error (.runtimeError (backendNetworkMsg msg)))
    ∧ (∀ status pid mb cu, raiseForStatus status = false →
        init cfg api_key (.httpResponse status (.ok ⟨some pid, some mb, some cu⟩))
          = ({ cfg with
                api_key := some api_key
                project_id := some pid
                monthly_budget := mb
                current_usage := cu }, .ok ())) := by
  refine ⟨?_, ?_, ?_, ?_⟩
  · intro body
    simp [init, h, raiseForStatus]
  · intro status body h4 h6 hne
    have hr : raiseForStatus status = true := by
      simp [raiseForStatus, h4, h6]
    simp [init, h, hr, hne]
  · intro msg
    simp [init, h]
  · intro status pid mb cu hr
    simp [init, h, hr]

theorem C8_verify_outcomes_witness :
    keyInvalid "api-sentinel_pk_x" = false
    ∧ (init initialConfig "api-sentinel_pk_x" (.httpResponse 401 (.parseError "e"))).2
        = .error (.valueError unauthorizedMsg)
    ∧ (init initialConfig "api-sentinel_pk_x" (.httpResponse 503 (.parseError "e"))).2
        = .error (.runtimeError (backendStatusMsg 503))
    ∧ (init initialConfig "api-sentinel_pk_x" (.networkError "timeout")).2
        = .error (.runtimeError (backendNetworkMsg "timeout"))
    ∧ init initialConfig "api-sentinel_pk_x"
          (.httpResponse 200 (.ok ⟨some "proj", some 100, some 5⟩))
        = ({ initialConfig with
              api_key := some "api-sentinel_pk_x"
              project_id := some "proj"
              monthly_budget := 100
              current_usage := 5 }, .ok ()) := by
  have h : keyInvalid "api-sentinel_pk_x" = false := by decide
  have hc := C8_verify_outcomes initialConfig "api-sentinel_pk_x" h
  exact ⟨h, hc.1 _, hc.2.1 503 _ (by norm_num) (by norm_num) (by norm_num), hc.2.2.1 _,
    hc.2.2.2 200 "proj" 100 5 (by decide)⟩

/-- C9: `init` is not atomic on failure — with a format-valid key, if
the verify step fails (HTTP 4xx/5xx or a transport error), the state
afterwards is the previous one with only `api_key` overwritten:
`project_id`, `monthly_budget` and `current_usage` keep their old
values. -/
theorem C9_init_not_atomic (cfg : SentinelConfig) (api_key : String)
    (verify : VerifyOutcome) (hk : keyInvalid api_key = false)
    (hv : verifyFails verify) :
    (init cfg api_key verify).1 = { cfg with api_key := some api_key } := by
  cases verify with
  | networkError msg => simp [init, hk]
  | httpResponse status body =>
    obtain ⟨h4, h6⟩ := hv
    have hr : raiseForStatus status = true := by
      simp [raiseForStatus, h4, h6]
    by_cases h401 : status = 401
    · subst h401
      simp [init, hk, show raiseForStatus 401 = true from by decide]
    · simp [init, hk, hr, h401]

theorem C9_init_not_atomic_witness :
    keyInvalid "api-sentinel_pk_new" = false
    ∧ verifyFails (.networkError "refused")
    ∧ (init ⟨some "api-sentinel_pk_old", "http://127.0.0.1:8000", some "oldproj", 42, 7⟩
          "api-sentinel_pk_new" (.networkError "refused")).1
        = ⟨some "api-sentinel_pk_new", "http://127.0.0.1:8000", some "oldproj", 42, 7⟩ := by
  have hk : keyInvalid "api-sentinel_pk_new" = false := by decide
  exact ⟨hk, trivial,
    C9_init_not_atomic ⟨some "api-sentinel_pk_old", "http://127.0.0.1:8000", some "oldproj", 42, 7⟩
      "api-sentinel_pk_new" (.networkError "refused") hk trivial⟩

/-- C10: on responses with non-negative token counts the OpenAI
adapter's cost is non-negative, and consequently `current_usage` never
decreases across any sequence of invocations of a method wrapped with
the OpenAI adapter. -/
theorem C10_usage_monotone :
    (∀ r : OpenAIResponse, tokensNonneg r → 0 ≤ (get_usage_and_cost r).cost)
    ∧ ∀ (cfg : SentinelConfig) (calls : List (Except String OpenAIResponse)),
        (∀ o ∈ calls, ∀ r, o = .ok r → tokensNonneg r) →
        cfg.current_usage ≤ (runCalls cfg calls).current_usage := by
  constructor
  · intro r hr
    exact calculateOpenaiCost_nonneg r.usage.prompt_tokens r.usage.completion_tokens
      r.model hr.1 hr.2
  · intro cfg calls h
    exact runCalls_usage_mono calls cfg h

theorem C10_usage_monotone_witness :
    (0 : ℚ) ≤ (get_usage_and_cost ⟨⟨1000, 500⟩, "gpt-4o"⟩).cost
    ∧ (⟨some "k", "u", none, 100, 0⟩ : SentinelConfig).current_usage
        ≤ (runCalls ⟨some "k", "u", none, 100, 0⟩
            [.ok ⟨⟨1000, 500⟩, "gpt-4o"⟩, .error "boom"]).current_usage := by
  constructor
  · exact C10_usage_monotone.1 ⟨⟨1000, 500⟩, "gpt-4o"⟩ ⟨by norm_num, by norm_num⟩
  · refine C10_usage_monotone.2 ⟨some "k", "u", none, 100, 0⟩ _ ?_
    intro o ho r hr
    subst hr
    simp only [List.mem_cons, List.mem_singleton, List.not_mem_nil, or_false] at ho
    rcases ho with h1 | h1
    · obtain rfl := Except.ok.inj h1
      exact ⟨by norm_num, by norm_num⟩
    · exact absurd h1 (by simp)

end Sentinel
